import Mathlib

/-!
Shallow embedding of `src/library_proj.py` (a single-user book library
manager) and verification of its specification.

The Python program has two components:
* class `Books` (lines 4-21): a plain record with five string fields.
* class `Books_Library` (lines 24-171): an in-memory list of `Books`
  synchronized with a JSON backing file; operations
  `load_book_library`, `save_book_database`, `add_book`, `delete_book`,
  `search_book`, `show_all_books`, `change_status`.

Modelling conventions:
* A `Books_Library` instance is modelled by `Store`: the in-memory list
  `books` together with the current content of the backing file
  (`DiskFile`).  The JSON *text* encoding/decoding is delegated to the
  Python standard library (an external collaborator per the spec), so the
  file content is modelled at the level of the decoded structure: either
  the file is absent, or its text is not valid JSON, or it decodes to a
  JSON value.
* Each method is a function `Store → Store × result`, mirroring the
  Python method body line by line; a method that neither assigns to
  `self.books` nor calls `save_book_database` returns the store unchanged.
* A Python local variable that may be read while unassigned
  (`result` in `change_status`) is modelled as `Option String`; the
  value `none` at the `return` statement models the `UnboundLocalError`
  the interpreter raises there.
* An exception that no `except` clause catches is modelled by
  `Except.error`.
-/

/-- Embeds class `Books` (library_proj.py lines 4-18): five string
fields `id`, `title`, `author`, `year`, `status`, set by `__init__`. -/
structure Books where
  id : String
  title : String
  author : String
  year : String
  status : String
deriving DecidableEq, Repr

/-- The values of `vars(book)` for a `Books` instance, in assignment
order (library_proj.py lines 14-18): the five field values scanned by
`search_book`. -/
def varsValues (b : Books) : List String :=
  [b.id, b.title, b.author, b.year, b.status]

/-- A JSON value, as decoded by `json.load`.  `str`, `arr` and `obj`
cover the shapes the program's own saves produce; `other` stands for any
other JSON value (number, boolean, null, or a non-string leaf). -/
inductive Json where
  | str : String → Json
  | arr : List Json → Json
  | obj : List (String × Json) → Json
  | other : Json

/-- The content of the backing file, at the granularity the program's
exception handlers distinguish (library_proj.py lines 46-54):
absent (`FileNotFoundError`), text that is not valid JSON
(`json.JSONDecodeError`), or a decoded JSON value. -/
inductive DiskFile where
  | absent : DiskFile
  | invalidText : DiskFile
  | json : Json → DiskFile

/-- A `Books_Library` instance together with its backing file: the
in-memory list `self.books` and the content of the file named
`self.file_name`. -/
structure Store where
  books : List Books
  file : DiskFile

/-- Embeds `Books(**book)` applied to a decoded JSON object
(library_proj.py line 49): the call succeeds exactly when the keyword
arguments are the five parameter names `id`, `title`, `author`, `year`,
`status`, each exactly once (a missing or extra key raises `TypeError`,
which no handler catches).  Per the file format of the spec the five
values are strings; `none` models the uncaught constructor failure. -/
def bookOfJson : Json → Option Books
  | Json.obj kvs =>
    match List.lookup "id" kvs, List.lookup "title" kvs,
          List.lookup "author" kvs, List.lookup "year" kvs,
          List.lookup "status" kvs with
    | some (Json.str i), some (Json.str t), some (Json.str a),
      some (Json.str y), some (Json.str s) =>
      if kvs.length = 5 then some ⟨i, t, a, y, s⟩ else none
    | _, _, _, _, _ => none
  | _ => none

/-- Embeds the comprehension `[Books(**book) for book in book_data]`
(library_proj.py line 49): the decoded top-level value must be an array,
and every element must construct a record; otherwise an uncaught
`TypeError` is raised (`none`). -/
def booksOfJson : Json → Option (List Books)
  | Json.arr xs => xs.mapM bookOfJson
  | _ => none

/-- Embeds `Books_Library.load_book_library` (library_proj.py lines
38-55).  Result: `Except.ok (books, diagnosticPrinted)`, or
`Except.error` for an exception that no `except` clause catches.
* file absent → `FileNotFoundError` caught, `books = []`, no message;
* text not valid JSON → `json.JSONDecodeError` caught, diagnostic
  printed, `books = []`;
* valid JSON decoding to a list of five-field objects → those records;
* any other valid JSON → `TypeError` from `Books(**book)`, uncaught. -/
def load_book_library : DiskFile → Except String (List Books × Bool)
  | DiskFile.absent => Except.ok ([], false)
  | DiskFile.invalidText => Except.ok ([], true)
  | DiskFile.json v =>
    match booksOfJson v with
    | some bs => Except.ok (bs, false)
    | none => Except.error "TypeError"

/-- Embeds the serialized structure built by
`Books_Library.save_book_database` (library_proj.py lines 67-73): one
JSON object per book with the five fields in source order. -/
def booksToJson (books : List Books) : Json :=
  Json.arr (books.map fun book =>
    Json.obj [("id", Json.str book.id), ("title", Json.str book.title),
              ("author", Json.str book.author), ("year", Json.str book.year),
              ("status", Json.str book.status)])

/-- Embeds `Books_Library.save_book_database` (library_proj.py lines
59-76): overwrites the backing file with the JSON rendering of the whole
current collection. -/
def save_book_database (s : Store) : Store :=
  { s with file := DiskFile.json (booksToJson s.books) }

/-- Embeds `Books_Library.add_book` (library_proj.py lines 80-92):
appends the record to `self.books` (no duplicate-identifier check),
then saves.  The printed success message carries no data. -/
def add_book (s : Store) (book : Books) : Store :=
  save_book_database { s with books := s.books ++ [book] }

/-- Removes the first record whose `id` equals `id_delete`.  Embeds
`self.books.remove(book_to_delete)` (library_proj.py line 110): the
element removed is the object found by `next`, i.e. the first record in
sequence order whose `id` matches (class `Books` defines no `__eq__`, so
`remove` compares by identity and removes exactly that object). -/
def removeFirstById (id_delete : String) : List Books → List Books
  | [] => []
  | book :: rest =>
    if book.id = id_delete then rest
    else book :: removeFirstById id_delete rest

/-- Embeds `Books_Library.delete_book` (library_proj.py lines 96-112):
`next` scans for the first record with the given id; if none, return the
not-found message without mutating or saving; otherwise remove that
record, save, and return the success message. -/
def delete_book (s : Store) (id_delete : String) : Store × String :=
  match s.books.find? (fun book => book.id == id_delete) with
  | none => (s, "Ошибка: Книга с ID " ++ id_delete ++ " не найдена\n")
  | some _ =>
    (save_book_database { s with books := removeFirstById id_delete s.books },
     "Книга успешно удалена\n")

/-- Embeds Python's substring test `needle in hay` on strings. -/
def strIn (needle hay : String) : Bool :=
  decide (needle.toList <:+: hay.toList)

/-- Embeds the per-record condition of `search_book`
(library_proj.py line 128):
`any(crit.lower() in value.lower() for value in vars(book).values())`.
Lowering is `String.toLower` (per-character `Char.toLower`); the claims
settled here do not depend on which characters lowering affects. -/
def bookMatches (crit : String) (book : Books) : Bool :=
  (varsValues book).any fun value => strIn crit.toLower value.toLower

/-- Embeds `Books_Library.search_book` (library_proj.py lines 116-130):
starting from the empty set, for each criterion add every record any of
whose field values contains the lowered criterion; `self.books` is never
assigned and `save_book_database` is never called, so the store is
returned unchanged. -/
def search_book (s : Store) (criterion : List String) : Store × Finset Books :=
  (s, criterion.foldl
    (fun results crit => results ∪ (s.books.filter (bookMatches crit)).toFinset)
    ∅)

/-- Embeds `Books_Library.show_all_books` (library_proj.py lines
134-141): returns `self.books`; no mutation, no save. -/
def show_all_books (s : Store) : Store × List Books :=
  (s, s.books)

/-- Embeds the `for book in self.books` loop of
`Books_Library.change_status` (library_proj.py lines 160-171).  The
accumulator is the current value of the local variable `result`
(`none` = not yet assigned).  On a match: set the status ("1" →
"В наличии", anything else → "Выдана"), assign `result`, record that
`save_book_database` runs, and `break`; on a mismatch: assign the
not-found message to `result` and continue.  Returns the updated list,
the final value of `result`, and whether a save happened. -/
def change_status_loop (id new_status : String) :
    List Books → Option String → List Books × Option String × Bool
  | [], result => ([], result, false)
  | book :: rest, _ =>
    if book.id = id then
      ({ book with status := if new_status = "1" then "В наличии" else "Выдана" }
         :: rest,
       some "Статус изменён", true)
    else
      let r := change_status_loop id new_status rest (some "Книга не найдена")
      (book :: r.1, r.2.1, r.2.2)

/-- Embeds `Books_Library.change_status` (library_proj.py lines
145-171): run the loop with `result` unassigned, write the file if the
loop saved, and return the final value of `result` — `none` models the
`UnboundLocalError` raised by `return result` when the loop body never
ran. -/
def change_status (s : Store) (id new_status : String) :
    Store × Option String :=
  let r := change_status_loop id new_status s.books none
  let s1 : Store := { s with books := r.1 }
  (if r.2.2 then save_book_database s1 else s1, r.2.1)

/-! ### Sample data, used to instantiate the verified statements -/

/-- A sample record. -/
def bkDune : Books := ⟨"id1", "Dune", "Herbert", "1965", "в наличии"⟩

/-- A second sample record, with a different identifier. -/
def bkOrwell : Books := ⟨"id2", "1984", "Orwell", "1949", "Выдана"⟩

/-- A sample store holding `bkDune`. -/
def stDune : Store := { books := [bkDune], file := DiskFile.absent }

/-! ### Helper lemmas -/

lemma toLower_data (s : String) : s.toLower.data = s.data.map Char.toLower := by
  simp [String.toLower, String.map_eq]

lemma empty_data : "".data = ([] : List Char) := rfl

lemma bookMatches_empty (b : Books) : bookMatches "" b = true := by
  simp [bookMatches, varsValues, strIn, toLower_data, empty_data, List.nil_infix]

lemma bookMatches_iff (crit : String) (b : Books) :
    bookMatches crit b = true ↔
      ∃ v ∈ varsValues b, crit.toLower.toList <:+: v.toLower.toList := by
  simp [bookMatches, strIn]

lemma change_status_loop_nomatch (id ns : String) (l : List Books)
    (h : ∀ b ∈ l, b.id ≠ id) (acc : Option String) :
    (change_status_loop id ns l acc).1 = l ∧
    (change_status_loop id ns l acc).2.2 = false ∧
    (change_status_loop id ns l acc).2.1 =
      if l = [] then acc else some "Книга не найдена" := by
  induction l generalizing acc with
  | nil => simp [change_status_loop]
  | cons b rest ih =>
    have hb : b.id ≠ id := h b (by simp)
    have ihr := ih (fun x hx => h x (by simp [hx])) (some "Книга не найдена")
    by_cases hr : rest = []
    · subst hr
      simp [change_status_loop, hb]
    · simp [change_status_loop, hb, ihr.1, ihr.2.1, ihr.2.2, hr]

lemma change_status_loop_match (id ns : String) (pre : List Books) (b : Books)
    (post : List Books) (hb : b.id = id) (hpre : ∀ x ∈ pre, x.id ≠ id)
    (acc : Option String) :
    change_status_loop id ns (pre ++ b :: post) acc =
      (pre ++ { b with status := if ns = "1" then "В наличии" else "Выдана" } :: post,
       some "Статус изменён", true) := by
  induction pre generalizing acc with
  | nil => simp [change_status_loop, hb]
  | cons a rest ih =>
    have ha : a.id ≠ id := hpre a (by simp)
    simp [change_status_loop, ha, ih (fun x hx => hpre x (by simp [hx]))]

lemma mem_search_foldl (bs : List Books) (crits : List String)
    (acc : Finset Books) (b : Books) :
    (b ∈ crits.foldl
        (fun results crit => results ∪ (bs.filter (bookMatches crit)).toFinset) acc) ↔
      b ∈ acc ∨ ∃ crit ∈ crits, b ∈ bs ∧ bookMatches crit b = true := by
  induction crits generalizing acc with
  | nil => simp
  | cons c cs ih =>
    simp only [List.foldl_cons, ih, Finset.mem_union, List.mem_toFinset,
      List.mem_filter, List.mem_cons]
    constructor
    · rintro ((h | h) | ⟨crit, hc, hb, hm⟩)
      · exact Or.inl h
      · exact Or.inr ⟨c, Or.inl rfl, h.1, h.2⟩
      · exact Or.inr ⟨crit, Or.inr hc, hb, hm⟩
    · rintro (h | ⟨crit, (rfl | hc), hb, hm⟩)
      · exact Or.inl (Or.inl h)
      · exact Or.inl (Or.inr ⟨hb, hm⟩)
      · exact Or.inr ⟨crit, hc, hb, hm⟩

lemma find?_id_none {l : List Books} {idd : String}
    (h : ∀ b ∈ l, b.id ≠ idd) :
    l.find? (fun book => book.id == idd) = none := by
  rw [List.find?_eq_none]
  intro x hx
  simp [h x hx]

lemma find?_id_first (pre : List Books) (b : Books) (post : List Books)
    (idd : String) (hb : b.id = idd) (hpre : ∀ x ∈ pre, x.id ≠ idd) :
    (pre ++ b :: post).find? (fun book => book.id == idd) = some b := by
  induction pre with
  | nil => simp [List.find?_cons, hb]
  | cons a rest ih =>
    have ha : (a.id == idd) = false := by
      simp [hpre a (by simp)]
    simp only [List.cons_append, List.find?_cons]
    simp [ha, ih (fun x hx => hpre x (by simp [hx]))]

lemma removeFirstById_first (pre : List Books) (b : Books) (post : List Books)
    (idd : String) (hb : b.id = idd) (hpre : ∀ x ∈ pre, x.id ≠ idd) :
    removeFirstById idd (pre ++ b :: post) = pre ++ post := by
  induction pre with
  | nil => simp [removeFirstById, hb]
  | cons a rest ih =>
    have ha : a.id ≠ idd := hpre a (by simp)
    simp [removeFirstById, ha, ih (fun x hx => hpre x (by simp [hx]))]

lemma bookOfJson_bookToJson (b : Books) :
    bookOfJson (Json.obj [("id", Json.str b.id), ("title", Json.str b.title),
      ("author", Json.str b.author), ("year", Json.str b.year),
      ("status", Json.str b.status)]) = some b := rfl

lemma booksOfJson_booksToJson (books : List Books) :
    booksOfJson (booksToJson books) = some books := by
  induction books with
  | nil => rfl
  | cons b rest ih =>
    simp only [booksToJson, booksOfJson] at ih ⊢
    rw [List.map_cons, List.mapM_cons, bookOfJson_bookToJson, ih]
    rfl

/-! ### Claim theorems -/

/-- C1 (code bug, evaluation at the failing input): on a store whose
collection is empty, `change_status` never assigns its local `result`
(the loop body never runs), so `return result` raises
`UnboundLocalError` — modelled by the `none` result — instead of
returning the not-found message the claim (and the method's own
docstring) promise. -/
theorem change_status_empty_store_eval :
    change_status { books := [], file := DiskFile.absent } "b7" "1"
      = ({ books := [], file := DiskFile.absent }, none) := rfl

/-- C2: round-trip — serializing a non-empty collection with
`save_book_database` and parsing the saved file with
`load_book_library` reproduces the very same list of records (hence an
equal set, with the same five fields per record), with no diagnostic
and no error. -/
theorem save_then_load_roundtrip (s : Store) (_h : s.books ≠ []) :
    load_book_library (save_book_database s).file = Except.ok (s.books, false) := by
  simp [save_book_database, load_book_library, booksOfJson_booksToJson]

/-- Witness for C2 at a concrete one-record store. -/
theorem save_then_load_roundtrip_witness :
    load_book_library (save_book_database stDune).file
      = Except.ok (stDune.books, false) :=
  save_then_load_roundtrip stDune (by simp [stDune])

/-- C3: `delete_book` — (i) on an identifier matching no record it
returns the not-found message and leaves the store (collection and
file) unchanged; (ii) on a present identifier it removes exactly the
first record whose id matches, leaving every other record (including
later duplicates) in place and in order, overwrites the file with the
new collection, and returns the success message; (iii) consequently,
when the id is unique, deleting twice succeeds the first time and
returns not-found the second time, leaving the store unchanged. -/
theorem delete_book_spec :
    (∀ (s : Store) (idd : String), (∀ b ∈ s.books, b.id ≠ idd) →
        delete_book s idd = (s, "Ошибка: Книга с ID " ++ idd ++ " не найдена\n"))
    ∧ (∀ (s : Store) (idd : String) (pre : List Books) (b : Books) (post : List Books),
        s.books = pre ++ b :: post → b.id = idd → (∀ x ∈ pre, x.id ≠ idd) →
        delete_book s idd =
          ({ books := pre ++ post,
             file := DiskFile.json (booksToJson (pre ++ post)) },
           "Книга успешно удалена\n"))
    ∧ ∀ (s : Store) (idd : String) (pre : List Books) (b : Books) (post : List Books),
        s.books = pre ++ b :: post → b.id = idd →
        (∀ x ∈ pre, x.id ≠ idd) → (∀ x ∈ post, x.id ≠ idd) →
        (delete_book s idd).2 = "Книга успешно удалена\n" ∧
        delete_book (delete_book s idd).1 idd =
          ((delete_book s idd).1, "Ошибка: Книга с ID " ++ idd ++ " не найдена\n") := by
  have habs : ∀ (s : Store) (idd : String), (∀ b ∈ s.books, b.id ≠ idd) →
      delete_book s idd = (s, "Ошибка: Книга с ID " ++ idd ++ " не найдена\n") := by
    intro s idd h
    simp [delete_book, find?_id_none h]
  have hdel : ∀ (s : Store) (idd : String) (pre : List Books) (b : Books)
      (post : List Books),
      s.books = pre ++ b :: post → b.id = idd → (∀ x ∈ pre, x.id ≠ idd) →
      delete_book s idd =
        ({ books := pre ++ post,
           file := DiskFile.json (booksToJson (pre ++ post)) },
         "Книга успешно удалена\n") := by
    intro s idd pre b post hs hb hpre
    simp [delete_book, hs, find?_id_first pre b post idd hb hpre,
      removeFirstById_first pre b post idd hb hpre, save_book_database]
  refine ⟨habs, hdel, ?_⟩
  intro s idd pre b post hs hb hpre hpost
  have h1 := hdel s idd pre b post hs hb hpre
  refine ⟨by rw [h1], ?_⟩
  rw [h1]
  refine habs _ idd ?_
  intro x hx
  rcases List.mem_append.1 hx with hmem | hmem
  · exact hpre x hmem
  · exact hpost x hmem

/-- Witness for C3 at a concrete one-record store: the first deletion
succeeds, the second reports not-found and changes nothing. -/
theorem delete_book_spec_witness :
    delete_book stDune "id1" =
      ({ books := [], file := DiskFile.json (booksToJson []) },
       "Книга успешно удалена\n") ∧
    delete_book (delete_book stDune "id1").1 "id1" =
      ((delete_book stDune "id1").1,
       "Ошибка: Книга с ID " ++ "id1" ++ " не найдена\n") := by
  have h1 := delete_book_spec.2.1 stDune "id1" [] bkDune [] rfl rfl (by simp)
  have h2 := (delete_book_spec.2.2 stDune "id1" [] bkDune [] rfl rfl
    (by simp) (by simp)).2
  exact ⟨by simpa using h1, h2⟩

/-- C4: a record is in the result of `search_book` exactly when it is in
the collection and at least one criterion, lowered, is a substring of at
least one of its five lowered field values (id, title, author, year,
status) — the duplicate-free union over the criteria, not the
intersection. -/
theorem search_book_union_semantics (s : Store) (criterion : List String)
    (b : Books) :
    b ∈ (search_book s criterion).2 ↔
      b ∈ s.books ∧ ∃ crit ∈ criterion,
        ∃ v ∈ [b.id, b.title, b.author, b.year, b.status],
          crit.toLower.toList <:+: v.toLower.toList := by
  simp only [search_book, mem_search_foldl, Finset.not_mem_empty, false_or,
    bookMatches_iff, varsValues]
  constructor
  · rintro ⟨crit, hc, hb, hv⟩
    exact ⟨hb, crit, hc, hv⟩
  · rintro ⟨hb, crit, hc, hv⟩
    exact ⟨crit, hc, hb, hv⟩

/-- C5: `change_status` on a store containing the identifier updates the
status of exactly the first matching record — to "В наличии" (available)
for the token "1" and to "Выдана" (checked out) for any other token —
overwrites the file with the updated collection, and returns the success
message; on an identifier matching no record the store (collection and
file) is left unchanged. -/
theorem change_status_spec :
    (∀ (s : Store) (id ns : String) (pre : List Books) (b : Books)
        (post : List Books),
        s.books = pre ++ b :: post → b.id = id → (∀ x ∈ pre, x.id ≠ id) →
        change_status s id ns =
          ({ books := pre ++
               { b with status := if ns = "1" then "В наличии" else "Выдана" }
               :: post,
             file := DiskFile.json (booksToJson (pre ++
               { b with status := if ns = "1" then "В наличии" else "Выдана" }
               :: post)) },
           some "Статус изменён"))
    ∧ ∀ (s : Store) (id ns : String), (∀ b ∈ s.books, b.id ≠ id) →
        (change_status s id ns).1 = s := by
  constructor
  · intro s id ns pre b post hs hb hpre
    simp [change_status, hs, change_status_loop_match id ns pre b post hb hpre,
      save_book_database]
  · intro s id ns h
    have hframe := change_status_loop_nomatch id ns s.books h none
    simp [change_status, hframe.1, hframe.2.1]

/-- Witness for C5: changing the status of the sample record with token
"2" rewrites its status to "Выдана" and saves. -/
theorem change_status_spec_witness :
    change_status stDune "id1" "2" =
      ({ books := [⟨"id1", "Dune", "Herbert", "1965", "Выдана"⟩],
         file := DiskFile.json
           (booksToJson [⟨"id1", "Dune", "Herbert", "1965", "Выдана"⟩]) },
       some "Статус изменён") := by
  have h := change_status_spec.1 stDune "id1" "2" [] bkDune [] rfl rfl (by simp)
  simpa [bkDune] using h

/-- C6: after `add_book`, `show_all_books` returns the previous
collection with the new record appended at the end — every prior record
kept, in order, and the new record present — with no condition on the
new record's identifier (no duplicate check: a colliding id is still
appended). -/
theorem add_book_appends (s : Store) (book : Books) :
    (show_all_books (add_book s book)).2 = (show_all_books s).2 ++ [book]
    ∧ book ∈ (show_all_books (add_book s book)).2 := by
  refine ⟨rfl, ?_⟩
  simp [show_all_books, add_book, save_book_database]

/-- C7 (amended): `load_book_library` yields the empty collection with
no error when the file is absent, and emits a diagnostic and yields the
empty collection when the file's text is not valid JSON; (the original
claim fails for valid JSON of the wrong shape, see the
counterexample). -/
theorem load_book_library_recovers :
    load_book_library DiskFile.absent = Except.ok ([], false)
    ∧ load_book_library DiskFile.invalidText = Except.ok ([], true) :=
  ⟨rfl, rfl⟩

/-- C7 counterexample: the file content `[{"id": "a"}]` is valid JSON
but cannot be decoded into a five-field record (`Books(**book)` lacks
four required arguments), and `load_book_library` raises an uncaught
`TypeError` on it instead of emitting a diagnostic and yielding the
empty collection. -/
theorem load_book_library_wrong_shape_raises :
    booksOfJson (Json.arr [Json.obj [("id", Json.str "a")]]) = none
    ∧ load_book_library (DiskFile.json (Json.arr [Json.obj [("id", Json.str "a")]]))
        = Except.error "TypeError" :=
  ⟨rfl, rfl⟩

/-- C8: on a store whose collection is empty, the loop body of
`change_status` never runs, the local `result` is never assigned, and
the method fails with `UnboundLocalError` (result component `none`)
instead of reporting not-found; the store is left unchanged. -/
theorem change_status_empty_store_unassigned (f : DiskFile) (id ns : String) :
    change_status { books := [], file := f } id ns
      = ({ books := [], file := f }, none) := rfl

/-- C9: `search_book` with a criteria list containing the empty string
returns the set of all records of the collection (the empty string is a
substring of every field value), and `search_book` with an empty
criteria list returns the empty set. -/
theorem search_book_empty_string_and_no_criteria :
    (∀ (s : Store) (crits : List String), "" ∈ crits →
        (search_book s crits).2 = s.books.toFinset)
    ∧ ∀ s : Store, (search_book s []).2 = ∅ := by
  constructor
  · intro s crits h
    ext b
    simp only [search_book, mem_search_foldl, Finset.not_mem_empty, false_or,
      List.mem_toFinset]
    constructor
    · rintro ⟨crit, hc, hb, hm⟩
      exact hb
    · intro hb
      exact ⟨"", h, hb, bookMatches_empty b⟩
  · intro s
    rfl

/-- Witness for C9: searching the sample store with the single criterion
"" returns all of its records. -/
theorem search_book_empty_string_witness :
    (search_book { books := [bkDune, bkOrwell], file := DiskFile.absent }
        [""]).2
      = ({ books := [bkDune, bkOrwell], file := DiskFile.absent } :
          Store).books.toFinset :=
  search_book_empty_string_and_no_criteria.1
    { books := [bkDune, bkOrwell], file := DiskFile.absent } [""] (by simp)

/-- C10: `search_book` and `show_all_books` are pure queries: they
return the store — in-memory collection and backing file alike —
unchanged. -/
theorem search_show_all_pure (s : Store) (criterion : List String) :
    (search_book s criterion).1 = s ∧ (show_all_books s).1 = s :=
  ⟨rfl, rfl⟩
